import Mathlib

/-
Shallow embedding of the K-means hospitals frontend (src/src/app/page.tsx).
JavaScript numbers are modelled as rationals, with an explicit NaN
constructor where NaN-propagation matters (form validation, display
formatting).  All definitions are translated from the TypeScript source;
line references point into src/src/app/page.tsx.
-/

namespace KmeansFrontend

/-- JavaScript number as it flows through the form and formatter: either NaN
or a numeric value modelled as a rational. -/
inductive JsNum where
  | nan : JsNum
  | num (q : ℚ) : JsNum
deriving DecidableEq

/-- JavaScript truthiness of a number: 0 and NaN are falsy, everything else
truthy (page.tsx lines 112-115 use the bang operator on form fields). -/
def JsNum.truthy : JsNum → Bool
  | .nan => false
  | .num q => q ≠ 0

/-- JavaScript comparison a less-or-equal b: false whenever either side is NaN. -/
def JsNum.jsLe : JsNum → JsNum → Bool
  | .num a, .num b => a ≤ b
  | _, _ => false

/-- JavaScript comparison a greater-than b: false whenever either side is NaN. -/
def JsNum.jsGt : JsNum → JsNum → Bool
  | .num a, .num b => b < a
  | _, _ => false

/-- Neighborhood record of the response payload (page.tsx lines 9-14). -/
structure Neighborhood where
  id : ℚ
  x : ℚ
  y : ℚ
  cluster : ℤ
deriving DecidableEq

/-- Hospital record of the response payload (page.tsx lines 16-20). -/
structure Hospital where
  id : ℚ
  x : ℚ
  y : ℚ
deriving DecidableEq

/-- Metrics record of the response payload (page.tsx lines 22-28). -/
structure Metrics where
  avg_distance : ℚ
  max_distance : ℚ
  inertia : ℚ
  iterations : ℚ
  history : Option (List ℚ)
deriving DecidableEq

/-- Per-hospital summary of the response payload (page.tsx lines 30-38).
Optional fields are modelled with Option. -/
structure HospitalSummary where
  hospital_id : ℚ
  vecindarios_asignados : ℚ
  avg_distance : Option ℚ
  coordinates : Option (ℚ × ℚ)
deriving DecidableEq

/-- Full response payload, the SimulationResult of the spec
(page.tsx lines 40-47). -/
structure SimulationResponse where
  grid_size : ℚ
  hospitals : List Hospital
  neighborhoods : List Neighborhood
  metrics : Metrics
  mensaje : Option String
  resumen_hospitales : Option (List HospitalSummary)
deriving DecidableEq

/-- Form state (page.tsx lines 49-54).  The m, num_neighborhoods and k inputs
always hold a number (possibly NaN, possibly 0 after clearing the field);
random_seed may additionally be the empty string or undefined, both of which
are modelled as none since both suppress the field in the payload. -/
structure FormState where
  m : JsNum
  num_neighborhoods : JsNum
  k : JsNum
  random_seed : Option JsNum
deriving DecidableEq

/-- Decimal digit character for a digit value below ten. -/
def digitChar (d : ℕ) : Char :=
  (['0', '1', '2', '3', '4', '5', '6', '7', '8', '9']).getD d '0'

/-- Decimal rendering of a natural number as characters, most significant
digit first. -/
def natReprChars (n : ℕ) : List Char :=
  if n = 0 then ['0'] else ((Nat.digits 10 n).reverse).map digitChar

/-- Zero-padded rendering of m to exactly d decimal digit characters,
most significant first. -/
def padChars (d m : ℕ) : List Char :=
  ((List.range d).reverse).map (fun i => digitChar (m / 10 ^ i % 10))

/-- Character-level model of the JavaScript builtin toFixed on a rational:
round the value scaled by ten to the digits to the nearest integer (ties
toward positive infinity, the tie rule of the ECMAScript specification),
then print sign, integer part, and exactly the requested count of decimal
digits.  The minus sign of values rounding to negative zero and the
exponential form for huge magnitudes are abstracted away. -/
def toFixedChars (q : ℚ) (d : ℕ) : List Char :=
  let scaled : ℤ := round (q * (10 : ℚ) ^ d)
  let n : ℕ := scaled.natAbs
  let body := natReprChars (n / 10 ^ d) ++
    (if d = 0 then [] else '.' :: padChars d (n % 10 ^ d))
  if scaled < 0 then '-' :: body else body

/-- String form of the toFixed model. -/
def toFixed (q : ℚ) (d : ℕ) : String :=
  String.mk (toFixedChars q d)

/-- Display formatter (page.tsx lines 74-79): an undefined or NaN value
renders as the em-dash placeholder, any other number via toFixed with the
requested digit count. -/
def formatNumber (value : Option JsNum) (digits : ℕ) : String :=
  match value with
  | none => "—"
  | some .nan => "—"
  | some (.num q) => toFixed q digits

/-- Formatter with the default digit count of two, the form used by callers
that pass no second argument. -/
def formatNumberDefault (value : Option JsNum) : String :=
  formatNumber value 2

/-- Validation message for the grid-size rule. -/
def msgM : String := "m debe ser mayor a 0."

/-- Validation message for the neighborhood-count rule. -/
def msgNum : String := "El número de vecindarios debe ser mayor a 0."

/-- Validation message for the hospital-count rule. -/
def msgK : String := "K debe ser mayor a 0."

/-- Validation message for the k-exceeds-neighborhoods rule. -/
def msgKExceeds : String := "K no puede superar al número de vecindarios."

/-- Form validation (page.tsx lines 110-124).  Each rule is evaluated
independently and pushes its own message; the typeof guards of the fourth
rule are always true because m, num_neighborhoods and k are numbers
(NaN included) in the form state. -/
def validateForm (form : FormState) : List String :=
  (if !form.m.truthy || form.m.jsLe (.num 0) then [msgM] else []) ++
  (if !form.num_neighborhoods.truthy || form.num_neighborhoods.jsLe (.num 0)
    then [msgNum] else []) ++
  (if !form.k.truthy || form.k.jsLe (.num 0) then [msgK] else []) ++
  (if form.k.jsGt form.num_neighborhoods then [msgKExceeds] else [])

/-- Request payload (page.tsx lines 138-150): the three numeric fields are
passed through Number (the identity on numbers) and random_seed is attached
only when neither empty nor undefined. -/
structure Payload where
  m : JsNum
  num_neighborhoods : JsNum
  k : JsNum
  random_seed : Option JsNum
deriving DecidableEq

/-- Payload built from the current form state. -/
def mkPayload (form : FormState) : Payload :=
  { m := form.m
    num_neighborhoods := form.num_neighborhoods
    k := form.k
    random_seed := form.random_seed }

/-- Outcome of the synchronous head of handleSubmit (page.tsx lines 126-134):
either the submission is blocked with the joined validation messages and no
request is issued, or exactly one request with the encoded payload goes out. -/
inductive SubmitAction where
  | blocked (message : String) : SubmitAction
  | requested (payload : Payload) : SubmitAction
deriving DecidableEq

/-- Validation gate of handleSubmit (page.tsx lines 130-134). -/
def handleSubmitStart (form : FormState) : SubmitAction :=
  let errors := validateForm form
  if errors.isEmpty then .requested (mkPayload form)
  else .blocked (String.intercalate " " errors)

/-- The three presentation tabs (page.tsx lines 86-88). -/
inductive Tab where
  | visual : Tab
  | metricas : Tab
  | hospitales : Tab
deriving DecidableEq

/-- Component state of Home relevant to the request lifecycle and the view
state machine (page.tsx lines 82-88). -/
structure HomeState where
  result : Option SimulationResponse
  loading : Bool
  errorMessage : Option String
  activeTab : Tab
deriving DecidableEq

/-- Dependency value of the tab-reset effect (page.tsx lines 90-92): the
effect is keyed on the optional chain result-metrics-iterations, not on the
result object itself. -/
def effectDep (result : Option SimulationResponse) : Option ℚ :=
  result.map (fun r => r.metrics.iterations)

/-- One render-to-render application of the useEffect of page.tsx lines
90-92: when the dependency value changed since the previous render, the
active tab is forced back to visual; otherwise the state is untouched. -/
def applyTabEffect (old new : HomeState) : HomeState :=
  if effectDep new.result = effectDep old.result then new
  else { new with activeTab := .visual }

/-- Fixed fallback message thrown for a non-success response with an empty
body (page.tsx line 161). -/
def httpFallbackMsg : String :=
  "No pudimos completar la simulación. Intenta de nuevo."

/-- Generic fallback message used when the caught value is not an Error
instance (page.tsx line 172). -/
def genericFallbackMsg : String :=
  "Ocurrió un error inesperado al comunicarse con el backend."

/-- How a fetch settles, as seen by the try-catch of handleSubmit
(page.tsx lines 152-173): a response whose ok flag is false with its body
read as text, a parsed successful response, or a thrown value (transport
failure of fetch, or a parse failure of the json call) carrying whether it
is an Error instance and its message text. -/
inductive FetchOutcome where
  | httpError (bodyText : String) : FetchOutcome
  | parsed (json : SimulationResponse) : FetchOutcome
  | thrown (isError : Bool) (message : String) : FetchOutcome
deriving DecidableEq

/-- Whether the outcome takes the catch branch. -/
def FetchOutcome.isFailure : FetchOutcome → Bool
  | .parsed _ => false
  | _ => true

/-- Error message reaching setErrorMessage in the catch branch (page.tsx
lines 158-173).  A non-success response throws an Error whose message is the
body text when non-empty, else the fixed http fallback; since that thrown
value is an Error instance, the catch surfaces exactly that message.  Any
other thrown value surfaces its own message when it is an Error instance and
the generic fallback otherwise. -/
def surfacedMessage : FetchOutcome → Option String
  | .parsed _ => none
  | .httpError bodyText =>
      some (if bodyText = "" then httpFallbackMsg else bodyText)
  | .thrown isError message =>
      some (if isError then message else genericFallbackMsg)

/-- State right after the validation gate passed: the error slot was cleared
at the top of handleSubmit (line 128) and setLoading true ran (line 137).
The tab-reset effect does not fire here because the result slot, hence the
effect dependency, is unchanged. -/
def submitStartState (s : HomeState) : HomeState :=
  applyTabEffect s { s with errorMessage := none, loading := true }

/-- Full state update of a submission that passed validation and then
settled with the given outcome (page.tsx lines 136-177), including the
tab-reset effect keyed on the iterations value: on success the result is
replaced; in the catch branch the result is cleared and the surfaced message
stored; loading ends either way. -/
def settle (s : HomeState) (o : FetchOutcome) : HomeState :=
  let started := { s with errorMessage := none, loading := true }
  let settled :=
    match o with
    | .parsed json => { started with result := some json, loading := false }
    | _ =>
        { started with
          result := none
          errorMessage := surfacedMessage o
          loading := false }
  applyTabEffect s settled

/-- Explicit user tab selection (page.tsx lines 294, 301, 308):
an unconditional transition. -/
def selectTab (s : HomeState) (t : Tab) : HomeState :=
  { s with activeTab := t }

/-- Largest element of a numeric list, the Math.max spread of page.tsx line
566; the source only applies it to a non-empty history (the component
returns null on an empty one), so the value on the empty list is arbitrary. -/
def listMax : List ℚ → ℚ
  | [] => 0
  | h :: t => t.foldl max h

/-- Smallest element of a numeric list, the Math.min spread of page.tsx
line 567. -/
def listMin : List ℚ → ℚ
  | [] => 0
  | h :: t => t.foldl min h

/-- Range used by the convergence chart (page.tsx line 568): the max-min
span, with 0 replaced by 1 by the or-else operator. -/
def chartRange (history : List ℚ) : ℚ :=
  if listMax history - listMin history = 0 then 1
  else listMax history - listMin history

/-- Normalized polyline points of the convergence chart (page.tsx lines
569-573): index i maps to x of i over the larger of length minus one and
one, times one hundred, and y of one hundred minus the min-max normalized
value times one hundred. -/
def chartPoints (history : List ℚ) : List (ℚ × ℚ) :=
  history.mapIdx (fun index value =>
    (((index : ℚ) / max ((history.length : ℚ) - 1) 1) * 100,
     100 - ((value - listMin history) / chartRange history) * 100))

/-- Whether the convergence chart renders at all (page.tsx line 565 returns
null on an empty history). -/
def chartRenders (history : List ℚ) : Bool :=
  !history.isEmpty

/-- Row shown by the hospitals table.  The avg_distance field is optional in
the displayed-value sense (formatNumber distinguishes present from absent);
the source always produces a present value via the nullish fallback to 0. -/
structure Row where
  id : ℚ
  x : ℚ
  y : ℚ
  vecindarios_asignados : ℚ
  avg_distance : Option ℚ
deriving DecidableEq

/-- Row built for one hospital (the map body of page.tsx lines 475-484):
the first summary with a matching hospital_id is looked up; a missing match
falls back to an object carrying only a zero assignment count, and the
avg_distance of the row is the nullish-coalesced value of the match, hence
always present. -/
def composeRow (resumen : List HospitalSummary) (hospital : Hospital) : Row :=
  match resumen.find? (fun item => item.hospital_id = hospital.id) with
  | some matching =>
      { id := hospital.id, x := hospital.x, y := hospital.y
        vecindarios_asignados := matching.vecindarios_asignados
        avg_distance := some (matching.avg_distance.getD 0) }
  | none =>
      { id := hospital.id, x := hospital.x, y := hospital.y
        vecindarios_asignados := 0
        avg_distance := some 0 }

/-- Row list of HospitalsTable (page.tsx lines 475-484): every hospital, in
the given order, is mapped to its row. -/
def composeRows (hospitals : List Hospital)
    (resumen : List HospitalSummary) : List Row :=
  hospitals.map (composeRow resumen)

/-- Vertical flip of SimulationPlot (page.tsx line 375). -/
def invertedY (grid_size y : ℚ) : ℚ :=
  grid_size - y

/-- Drawing position of a neighborhood dot (page.tsx lines 396-397). -/
def neighborhoodDrawPos (grid_size : ℚ) (n : Neighborhood) : ℚ × ℚ :=
  (n.x, invertedY grid_size n.y)

/-- Drawing position of a hospital marker (page.tsx lines 406-407). -/
def hospitalDrawPos (grid_size : ℚ) (h : Hospital) : ℚ × ℚ :=
  (h.x, invertedY grid_size h.y)

/-- Submittability of a form draft, the property the spec pairs with an
empty validation result: each of m, num_neighborhoods and k is an actual
number strictly above zero, and k does not exceed num_neighborhoods. -/
def Submittable (f : FormState) : Prop :=
  (∃ q : ℚ, f.m = .num q ∧ 0 < q) ∧
  (∃ q : ℚ, f.num_neighborhoods = .num q ∧ 0 < q) ∧
  (∃ q : ℚ, f.k = .num q ∧ 0 < q) ∧
  (∀ qk qn : ℚ, f.k = .num qk → f.num_neighborhoods = .num qn → qk ≤ qn)

theorem effectDep_none_iff (r : Option SimulationResponse) :
    effectDep r = none ↔ r = none := by
  cases r <;> simp [effectDep]

theorem applyTabEffect_result (old new : HomeState) :
    (applyTabEffect old new).result = new.result := by
  unfold applyTabEffect
  split <;> rfl

theorem applyTabEffect_errorMessage (old new : HomeState) :
    (applyTabEffect old new).errorMessage = new.errorMessage := by
  unfold applyTabEffect
  split <;> rfl

theorem settle_result (s : HomeState) (o : FetchOutcome) :
    (settle s o).result =
      match o with
      | .parsed j => some j
      | _ => none := by
  cases o <;> simp [settle, applyTabEffect] <;> split <;> rfl

theorem settle_errorMessage (s : HomeState) (o : FetchOutcome) :
    (settle s o).errorMessage = surfacedMessage o := by
  cases o <;> simp [settle, applyTabEffect, surfacedMessage] <;> split <;> rfl

/-- C1.  The claim says every successful submission forces the active tab
back to visual regardless of the payload.  The effect is keyed on the
iterations metric, so a success whose payload repeats the stored iterations
count leaves the tab alone: here a new payload with iterations 5 is stored
over a previous result that also had iterations 5 while the metricas tab is
active, and the tab stays on metricas. -/
theorem c1_tab_not_reset_on_same_iterations :
    (settle
      { result := some
          { grid_size := 100, hospitals := [], neighborhoods := []
            metrics :=
              { avg_distance := 0, max_distance := 0, inertia := 0
                iterations := 5, history := none }
            mensaje := none, resumen_hospitales := none }
        loading := false, errorMessage := none, activeTab := .metricas }
      (.parsed
        { grid_size := 100, hospitals := [], neighborhoods := []
          metrics :=
            { avg_distance := 3, max_distance := 9, inertia := 1
              iterations := 5, history := none }
          mensaje := none, resumen_hospitales := none })).activeTab
      ≠ Tab.visual := by
  decide

/-- C1 (amended).  After a successful submission the active tab is forced
back to visual exactly when the payload's iterations metric differs from the
effect dependency computed from the previously stored result; when the
iterations value is unchanged the tab the user selected is kept. -/
theorem c1_tab_reset_on_new_iterations (s : HomeState) (j : SimulationResponse) :
    (settle s (.parsed j)).activeTab =
      if some j.metrics.iterations = effectDep s.result then s.activeTab
      else Tab.visual := by
  unfold settle applyTabEffect effectDep
  split <;> split <;> simp_all [effectDep]

/-- C3.  The claim says a failed submission leaves the active tab unchanged.
When a result was stored, the failure clears it, which changes the effect
dependency from the stored iterations to none and forces the tab back to
visual: here a failure lands while the metricas tab is active over a stored
result, and the tab does not stay on metricas. -/
theorem c3_tab_reset_on_failure_after_result :
    (settle
      { result := some
          { grid_size := 100, hospitals := [], neighborhoods := []
            metrics :=
              { avg_distance := 0, max_distance := 0, inertia := 0
                iterations := 5, history := none }
            mensaje := none, resumen_hospitales := none }
        loading := false, errorMessage := none, activeTab := .metricas }
      (.thrown true "net down")).activeTab ≠ Tab.metricas := by
  decide

/-- C3 (amended).  On a failed submission the active tab is left unchanged
precisely when no result was stored; when a previous result existed, its
clearing changes the effect dependency and resets the tab to visual.  No
transition occurs on submission start, and user selection switches tabs
unconditionally. -/
theorem c3_failure_tab_behaviour (s : HomeState) (b : String) (i : Bool)
    (m : String) (t : Tab) :
    (settle s (.httpError b)).activeTab =
      (if s.result = none then s.activeTab else Tab.visual)
    ∧ (settle s (.thrown i m)).activeTab =
      (if s.result = none then s.activeTab else Tab.visual)
    ∧ (submitStartState s).activeTab = s.activeTab
    ∧ (selectTab s t).activeTab = t := by
  refine ⟨?_, ?_, ?_, rfl⟩ <;>
    cases h : s.result <;>
      simp [settle, submitStartState, applyTabEffect, effectDep, h]

/-- C4.  The claim says every transport or parse exception surfaces a fixed
generic fallback message rather than the exception's own text.  Transport
and parse failures throw Error instances, and the catch branch surfaces the
message of any Error instance verbatim: a thrown Error reading Failed to
fetch is surfaced as such, not as the generic fallback. -/
theorem c4_exception_message_surfaced_verbatim :
    surfacedMessage (.thrown true "Failed to fetch") = some "Failed to fetch"
    ∧ "Failed to fetch" ≠ genericFallbackMsg := by
  refine ⟨rfl, ?_⟩
  decide

/-- C4 (amended).  On a non-success HTTP status the surfaced message is the
raw response body when non-empty and the fixed http fallback otherwise; on a
thrown value, the exception's own message is surfaced when the value is an
Error instance (as transport and parse failures are), and the generic fixed
fallback only when some non-Error value was thrown. -/
theorem c4_error_surfacing (s : HomeState) (b : String) (i : Bool) (m : String) :
    (settle s (.httpError b)).errorMessage =
      some (if b = "" then httpFallbackMsg else b)
    ∧ (settle s (.thrown i m)).errorMessage =
      some (if i then m else genericFallbackMsg) := by
  rw [settle_errorMessage, settle_errorMessage]
  exact ⟨rfl, rfl⟩

/-- C8.  Every settled submission updates the two slots as claimed: a
success stores exactly the new payload and leaves the error slot empty,
while either kind of failure clears the result slot entirely and fills the
error slot with the surfaced message. -/
theorem c8_result_and_error_slots (s : HomeState) (j : SimulationResponse)
    (b : String) (i : Bool) (m : String) :
    (settle s (.parsed j)).result = some j
    ∧ (settle s (.parsed j)).errorMessage = none
    ∧ (settle s (.httpError b)).result = none
    ∧ (settle s (.httpError b)).errorMessage =
        surfacedMessage (.httpError b)
    ∧ (surfacedMessage (FetchOutcome.httpError b)).isSome = true
    ∧ (settle s (.thrown i m)).result = none
    ∧ (settle s (.thrown i m)).errorMessage =
        surfacedMessage (.thrown i m)
    ∧ (surfacedMessage (FetchOutcome.thrown i m)).isSome = true := by
  refine ⟨?_, ?_, ?_, ?_, rfl, ?_, ?_, rfl⟩ <;>
    simp [settle_result, settle_errorMessage, surfacedMessage]

/-- C9.  The geometry mapper sends a point to its x coordinate unchanged and
to grid_size minus y vertically; the very same mapping is applied to
neighborhoods and hospitals, so two markers at equal solver coordinates land
at equal drawing coordinates; and the vertical flip is an involution, so the
round trip recovers y exactly. -/
theorem c9_geometry_mapper (g y x nid hid : ℚ) (c : ℤ)
    (n : Neighborhood) (h : Hospital) :
    neighborhoodDrawPos g n = (n.x, g - n.y)
    ∧ hospitalDrawPos g h = (h.x, g - h.y)
    ∧ neighborhoodDrawPos g { id := nid, x := x, y := y, cluster := c } =
        hospitalDrawPos g { id := hid, x := x, y := y }
    ∧ invertedY g (invertedY g y) = y := by
  refine ⟨rfl, rfl, rfl, ?_⟩
  unfold invertedY
  ring

theorem foldl_max_eq_or_mem (t : List ℚ) :
    ∀ a : ℚ, t.foldl max a = a ∨ t.foldl max a ∈ t := by
  induction t with
  | nil => intro a; exact Or.inl rfl
  | cons b bs ih =>
      intro a
      rcases ih (max a b) with h | h
      · rcases max_choice a b with hm | hm
        · exact Or.inl (by rw [List.foldl_cons, h, hm])
        · exact Or.inr (by rw [List.foldl_cons, h, hm]; exact List.mem_cons_self b bs)
      · exact Or.inr (List.mem_cons_of_mem b h)

theorem le_foldl_max (t : List ℚ) :
    ∀ a : ℚ, a ≤ t.foldl max a ∧ ∀ x ∈ t, x ≤ t.foldl max a := by
  induction t with
  | nil => intro a; exact ⟨le_refl a, by intro x hx; cases hx⟩
  | cons b bs ih =>
      intro a
      obtain ⟨h1, h2⟩ := ih (max a b)
      refine ⟨le_trans (le_max_left a b) h1, ?_⟩
      intro x hx
      rcases List.mem_cons.mp hx with rfl | hx
      · exact le_trans (le_max_right a x) h1
      · exact h2 x hx

theorem foldl_min_eq_or_mem (t : List ℚ) :
    ∀ a : ℚ, t.foldl min a = a ∨ t.foldl min a ∈ t := by
  induction t with
  | nil => intro a; exact Or.inl rfl
  | cons b bs ih =>
      intro a
      rcases ih (min a b) with h | h
      · rcases min_choice a b with hm | hm
        · exact Or.inl (by rw [List.foldl_cons, h, hm])
        · exact Or.inr (by rw [List.foldl_cons, h, hm]; exact List.mem_cons_self b bs)
      · exact Or.inr (List.mem_cons_of_mem b h)

theorem foldl_min_le (t : List ℚ) :
    ∀ a : ℚ, t.foldl min a ≤ a ∧ ∀ x ∈ t, t.foldl min a ≤ x := by
  induction t with
  | nil => intro a; exact ⟨le_refl a, by intro x hx; cases hx⟩
  | cons b bs ih =>
      intro a
      obtain ⟨h1, h2⟩ := ih (min a b)
      refine ⟨le_trans h1 (min_le_left a b), ?_⟩
      intro x hx
      rcases List.mem_cons.mp hx with rfl | hx
      · exact le_trans h1 (min_le_right a x)
      · exact h2 x hx

theorem listMax_mem (l : List ℚ) (hl : l ≠ []) : listMax l ∈ l := by
  cases l with
  | nil => exact absurd rfl hl
  | cons h t =>
      rcases foldl_max_eq_or_mem t h with he | he
      · rw [listMax, he]; exact List.mem_cons_self h t
      · rw [listMax]; exact List.mem_cons_of_mem h he

theorem listMin_mem (l : List ℚ) (hl : l ≠ []) : listMin l ∈ l := by
  cases l with
  | nil => exact absurd rfl hl
  | cons h t =>
      rcases foldl_min_eq_or_mem t h with he | he
      · rw [listMin, he]; exact List.mem_cons_self h t
      · rw [listMin]; exact List.mem_cons_of_mem h he

theorem le_listMax (l : List ℚ) (x : ℚ) (hx : x ∈ l) : x ≤ listMax l := by
  cases l with
  | nil => cases hx
  | cons h t =>
      obtain ⟨h1, h2⟩ := le_foldl_max t h
      rcases List.mem_cons.mp hx with rfl | hx
      · exact h1
      · exact h2 x hx

theorem listMin_le (l : List ℚ) (x : ℚ) (hx : x ∈ l) : listMin l ≤ x := by
  cases l with
  | nil => cases hx
  | cons h t =>
      obtain ⟨h1, h2⟩ := foldl_min_le t h
      rcases List.mem_cons.mp hx with rfl | hx
      · exact h1
      · exact h2 x hx

theorem listMax_flat (v : ℚ) (l : List ℚ) (hl : l ≠ [])
    (hflat : ∀ x ∈ l, x = v) : listMax l = v := by
  have hm := listMax_mem l hl
  exact hflat _ hm

theorem listMin_flat (v : ℚ) (l : List ℚ) (hl : l ≠ [])
    (hflat : ∀ x ∈ l, x = v) : listMin l = v := by
  have hm := listMin_mem l hl
  exact hflat _ hm

theorem chartPoints_getD (l : List ℚ) (i : ℕ) (hi : i < l.length) :
    (chartPoints l).getD i (0, 0) =
      (((i : ℚ) / max ((l.length : ℚ) - 1) 1) * 100,
       100 - ((l.getD i 0 - listMin l) / chartRange l) * 100) := by
  unfold chartPoints
  rw [List.getD_eq_getElem?_getD, List.getD_eq_getElem?_getD,
    List.getElem?_mapIdx, List.getElem?_eq_getElem hi]
  rfl

theorem flat_pair_eval :
    listMin [(7 : ℚ), 7] = 7 ∧ chartRange [(7 : ℚ), 7] = 1 := by
  have hmin : listMin [(7 : ℚ), 7] = 7 := by simp [listMin]
  have hmax : listMax [(7 : ℚ), 7] = 7 := by simp [listMax]
  exact ⟨hmin, by simp [chartRange, hmin, hmax]⟩

theorem descending_vector_eval :
    listMin [(100 : ℚ), 50, 10] = 10 ∧ listMax [(100 : ℚ), 50, 10] = 100
    ∧ chartRange [(100 : ℚ), 50, 10] = 90 := by
  have hmin : listMin [(100 : ℚ), 50, 10] = 10 := by
    norm_num [listMin, min_def]
  have hmax : listMax [(100 : ℚ), 50, 10] = 100 := by
    norm_num [listMax, max_def]
  refine ⟨hmin, hmax, ?_⟩
  norm_num [chartRange, hmin, hmax]

/-- C2.  The claim says a flat history maps every sample to the vertical
midpoint drawY of 50.  The code substitutes 1 for the zero range and then
computes 100 minus a zero offset, so both samples of the flat history 7, 7
land at drawY of 100, the bottom edge, not the midpoint. -/
theorem c2_flat_history_not_midpoint :
    ((chartPoints [(7 : ℚ), 7]).getD 0 (0, 0)).2 ≠ 50
    ∧ ((chartPoints [(7 : ℚ), 7]).getD 1 (0, 0)).2 ≠ 50
    ∧ ((chartPoints [(7 : ℚ), 7]).getD 0 (0, 0)).2 = 100 := by
  obtain ⟨hmin, hr⟩ := flat_pair_eval
  refine ⟨?_, ?_, ?_⟩ <;>
    · rw [chartPoints_getD _ _ (by norm_num)]
      norm_num [hmin, hr]

/-- C2 (amended).  For every flat history the range falls back to 1, so no
division by zero occurs, and every sample maps to drawY of 100, the bottom
edge of the chart viewbox, rather than the midpoint. -/
theorem c2_flat_history (v : ℚ) (l : List ℚ) (hl : l ≠ [])
    (hflat : ∀ x ∈ l, x = v) :
    chartRange l = 1 ∧ ∀ p ∈ chartPoints l, p.2 = 100 := by
  have hmax := listMax_flat v l hl hflat
  have hmin := listMin_flat v l hl hflat
  have hrange : chartRange l = 1 := by
    unfold chartRange
    rw [hmax, hmin]
    simp
  refine ⟨hrange, ?_⟩
  intro p hp
  obtain ⟨i, hi, rfl⟩ := List.exists_of_mem_mapIdx hp
  have hv : l[i] = v := hflat _ (List.getElem_mem hi)
  simp [hv, hmin, hrange]

/-- C2 (witness).  The flat history 7, 7 evaluates under the amended
statement: the range falls back to 1 and the first sample draws at 100. -/
theorem c2_flat_history_witness :
    chartRange [(7 : ℚ), 7] = 1
    ∧ ((chartPoints [(7 : ℚ), 7]).getD 0 (0, 0)).2 = 100 := by
  have h := c2_flat_history 7 [(7 : ℚ), 7] (by simp) (by norm_num)
  have hlen : 0 < (chartPoints [(7 : ℚ), 7]).length := by
    simp [chartPoints]
  have hmem : (chartPoints [(7 : ℚ), 7]).getD 0 (0, 0)
      ∈ chartPoints [(7 : ℚ), 7] := by
    rw [List.getD_eq_getElem?_getD, List.getElem?_eq_getElem hlen]
    exact List.getElem_mem hlen
  exact ⟨h.1, h.2 _ hmem⟩

/-- C5.  The claim reads the test vector backwards: for history 100, 50, 10
it puts sample 0 at drawY of 100 and sample 2 at drawY of 0.  The code draws
larger values higher, meaning smaller drawY: sample 0, the maximum, draws at
0 and sample 2, the minimum, draws at 100. -/
theorem c5_vector_swapped :
    ((chartPoints [(100 : ℚ), 50, 10]).getD 0 (0, 0)).2 ≠ 100
    ∧ ((chartPoints [(100 : ℚ), 50, 10]).getD 2 (0, 0)).2 ≠ 0
    ∧ ((chartPoints [(100 : ℚ), 50, 10]).getD 0 (0, 0)).2 = 0
    ∧ ((chartPoints [(100 : ℚ), 50, 10]).getD 2 (0, 0)).2 = 100 := by
  obtain ⟨hmin, hmax, hr⟩ := descending_vector_eval
  refine ⟨?_, ?_, ?_, ?_⟩ <;>
    · rw [chartPoints_getD _ _ (by norm_num)]
      norm_num [hmin, hr]

/-- C5 (amended).  For every history with at least two samples, sample i
draws at x of i over the larger of length minus one and one, times 100, and
at y of 100 minus the min-max-normalized value times 100, where the low and
high bounds really are the minimum and maximum of the history and the range
degenerates to 1 only on a flat history; for the history 100, 50, 10 the
samples draw at y of 0, then 100 minus 40 over 90 times 100, then 100. -/
theorem c5_normalizer (l : List ℚ) (i : ℕ) (hi : i < l.length) :
    (chartPoints l).length = l.length
    ∧ (chartPoints l).getD i (0, 0) =
        (((i : ℚ) / max ((l.length : ℚ) - 1) 1) * 100,
         100 - ((l.getD i 0 - listMin l) / chartRange l) * 100)
    ∧ (l ≠ [] → listMax l ∈ l ∧ listMin l ∈ l)
    ∧ (∀ x ∈ l, listMin l ≤ x ∧ x ≤ listMax l)
    ∧ chartRange l =
        (if listMax l - listMin l = 0 then 1 else listMax l - listMin l)
    ∧ (chartPoints [(100 : ℚ), 50, 10]).getD 0 (0, 0) = (0, 0)
    ∧ (chartPoints [(100 : ℚ), 50, 10]).getD 1 (0, 0) =
        (50, 100 - (40 / 90) * 100)
    ∧ (chartPoints [(100 : ℚ), 50, 10]).getD 2 (0, 0) = (100, 100) := by
  obtain ⟨hmin, hmax, hr⟩ := descending_vector_eval
  refine ⟨by simp [chartPoints], chartPoints_getD l i hi, ?_, ?_, rfl, ?_, ?_, ?_⟩
  · intro hl
    exact ⟨listMax_mem l hl, listMin_mem l hl⟩
  · intro x hx
    exact ⟨listMin_le l x hx, le_listMax l x hx⟩
  all_goals
    rw [chartPoints_getD _ _ (by norm_num)]
    refine Prod.ext ?_ ?_ <;> norm_num [hmin, hr]

/-- C5 (witness).  The amended statement evaluated at the history
100, 50, 10 and sample index 1: the middle sample draws at x of 50 and y of
100 minus 40 over 90 times 100. -/
theorem c5_normalizer_witness :
    (chartPoints [(100 : ℚ), 50, 10]).getD 1 (0, 0) =
      (50, 100 - (40 / 90) * 100) := by
  exact (c5_normalizer [(100 : ℚ), 50, 10] 1 (by norm_num)).2.2.2.2.2.2.1

theorem find?_key_eq_some_of_mem (key : ℚ) (l : List HospitalSummary)
    (hnd : (l.map HospitalSummary.hospital_id).Nodup)
    (s : HospitalSummary) (hs : s ∈ l) (hkey : s.hospital_id = key) :
    l.find? (fun item => item.hospital_id = key) = some s := by
  induction l with
  | nil => cases hs
  | cons a t ih =>
      rw [List.map_cons, List.nodup_cons] at hnd
      by_cases pa : a.hospital_id = key
      · rcases List.mem_cons.mp hs with rfl | hmem
        · simp [List.find?_cons_of_pos, pa]
        · exfalso
          apply hnd.1
          rw [pa, ← hkey]
          exact List.mem_map_of_mem HospitalSummary.hospital_id hmem
      · rcases List.mem_cons.mp hs with rfl | hmem
        · exact absurd hkey pa
        · rw [List.find?_cons_of_neg _ (by simpa using pa)]
          exact ih hnd.2 hmem

theorem find?_key_perm (key : ℚ) (l l' : List HospitalSummary)
    (hperm : l.Perm l')
    (hnd : (l.map HospitalSummary.hospital_id).Nodup) :
    l.find? (fun item => item.hospital_id = key) =
      l'.find? (fun item => item.hospital_id = key) := by
  cases h : l.find? (fun item => decide (item.hospital_id = key)) with
  | none =>
      have h2 := List.find?_eq_none.mp h
      symm
      rw [List.find?_eq_none]
      intro x hx
      exact h2 x (hperm.mem_iff.mpr hx)
  | some s =>
      have hp0 := List.find?_some h
      have hp : s.hospital_id = key := by simpa using hp0
      have hmem : s ∈ l' := hperm.mem_iff.mp (List.mem_of_find?_eq_some h)
      have hnd' : (l'.map HospitalSummary.hospital_id).Nodup :=
        (hperm.map HospitalSummary.hospital_id).nodup_iff.mp hnd
      exact (find?_key_eq_some_of_mem key l' hnd' s hmem hp).symm

theorem composeRow_id (rs : List HospitalSummary) (h : Hospital) :
    (composeRow rs h).id = h.id := by
  unfold composeRow
  split <;> rfl

theorem composeRows_getD (hs : List Hospital) (rs : List HospitalSummary)
    (i : ℕ) (hi : i < hs.length) :
    (composeRows hs rs).getD i { id := 0, x := 0, y := 0
                                 vecindarios_asignados := 0
                                 avg_distance := none } =
      composeRow rs (hs.getD i { id := 0, x := 0, y := 0 }) := by
  rw [composeRows, List.getD_eq_getElem?_getD, List.getD_eq_getElem?_getD,
    List.getElem?_map, List.getElem?_eq_getElem hi]
  rfl

/-- C6.  The claim says a hospital with no matching summary gets its
avg_distance left unset.  The row builder instead coalesces the missing
value to 0, a present value that renders as 0.00 rather than as the
placeholder: the single hospital here has no summary and its row carries a
present avg_distance of 0. -/
theorem c6_absent_summary_avg_distance_present :
    ((composeRows [{ id := 5, x := 1, y := 2 }] []).getD 0
        { id := 0, x := 0, y := 0, vecindarios_asignados := 0
          avg_distance := none }).avg_distance = some 0
    ∧ some (0 : ℚ) ≠ (none : Option ℚ) := by
  exact ⟨rfl, by simp⟩

/-- C6 (amended).  The row builder produces exactly one row per hospital, in
the hospitals' given order; a hospital whose id matches some summary (under
the invariant that summary keys are unique) takes that summary's assignment
count, and a hospital with no matching summary gets a zero count and an
avg_distance defaulted to a present 0 rather than left unset; the output is
unchanged under any permutation of a summary list with unique keys, and
missing summaries only trigger the defaults. -/
theorem c6_derived_view_composer (hs : List Hospital)
    (rs rs' : List HospitalSummary) (i : ℕ) (s : HospitalSummary) :
    (composeRows hs rs).length = hs.length
    ∧ (composeRows hs rs).map Row.id = hs.map Hospital.id
    ∧ (i < hs.length →
        ((rs.map HospitalSummary.hospital_id).Nodup → s ∈ rs →
          s.hospital_id = (hs.getD i { id := 0, x := 0, y := 0 }).id →
          ((composeRows hs rs).getD i
              { id := 0, x := 0, y := 0, vecindarios_asignados := 0
                avg_distance := none }).vecindarios_asignados =
            s.vecindarios_asignados)
        ∧ ((∀ t ∈ rs,
              t.hospital_id ≠ (hs.getD i { id := 0, x := 0, y := 0 }).id) →
            ((composeRows hs rs).getD i
                { id := 0, x := 0, y := 0, vecindarios_asignados := 0
                  avg_distance := none }).vecindarios_asignados = 0
            ∧ ((composeRows hs rs).getD i
                { id := 0, x := 0, y := 0, vecindarios_asignados := 0
                  avg_distance := none }).avg_distance = some 0))
    ∧ ((rs.map HospitalSummary.hospital_id).Nodup → rs.Perm rs' →
        composeRows hs rs = composeRows hs rs') := by
  refine ⟨by simp [composeRows], ?_, ?_, ?_⟩
  · rw [composeRows, List.map_map]
    exact List.map_congr_left (fun h hmem => composeRow_id rs h)
  · intro hi
    constructor
    · intro hnd hmem hkey
      rw [composeRows_getD hs rs i hi]
      unfold composeRow
      rw [find?_key_eq_some_of_mem _ rs hnd s hmem hkey]
    · intro habs
      rw [composeRows_getD hs rs i hi]
      unfold composeRow
      rw [List.find?_eq_none.mpr (fun x hx => by simpa using habs x hx)]
      exact ⟨rfl, rfl⟩
  · intro hnd hperm
    rw [composeRows, composeRows]
    refine List.map_congr_left (fun h hmem => ?_)
    unfold composeRow
    rw [find?_key_perm h.id rs rs' hperm hnd]

/-- C6 (witness).  The spec example evaluated through the composer theorem:
hospitals 0, 1, 2 with a single summary for hospital 1 carrying 12 assigned
neighborhoods give three rows whose counts are 0, 12 and 0. -/
theorem c6_derived_view_composer_witness :
    (composeRows
        [{ id := 0, x := 0, y := 0 }, { id := 1, x := 0, y := 0 },
         { id := 2, x := 0, y := 0 }]
        [{ hospital_id := 1, vecindarios_asignados := 12
           avg_distance := none, coordinates := none }]).length = 3
    ∧ ((composeRows
        [{ id := 0, x := 0, y := 0 }, { id := 1, x := 0, y := 0 },
         { id := 2, x := 0, y := 0 }]
        [{ hospital_id := 1, vecindarios_asignados := 12
           avg_distance := none, coordinates := none }]).getD 1
          { id := 0, x := 0, y := 0, vecindarios_asignados := 0
            avg_distance := none }).vecindarios_asignados = 12
    ∧ ((composeRows
        [{ id := 0, x := 0, y := 0 }, { id := 1, x := 0, y := 0 },
         { id := 2, x := 0, y := 0 }]
        [{ hospital_id := 1, vecindarios_asignados := 12
           avg_distance := none, coordinates := none }]).getD 0
          { id := 0, x := 0, y := 0, vecindarios_asignados := 0
            avg_distance := none }).vecindarios_asignados = 0
    ∧ ((composeRows
        [{ id := 0, x := 0, y := 0 }, { id := 1, x := 0, y := 0 },
         { id := 2, x := 0, y := 0 }]
        [{ hospital_id := 1, vecindarios_asignados := 12
           avg_distance := none, coordinates := none }]).getD 2
          { id := 0, x := 0, y := 0, vecindarios_asignados := 0
            avg_distance := none }).vecindarios_asignados = 0 := by
  refine ⟨?_, ?_, ?_, ?_⟩
  · rw [(c6_derived_view_composer
      [{ id := 0, x := 0, y := 0 }, { id := 1, x := 0, y := 0 },
       { id := 2, x := 0, y := 0 }]
      [{ hospital_id := 1, vecindarios_asignados := 12
         avg_distance := none, coordinates := none }] [] 0
      { hospital_id := 1, vecindarios_asignados := 12
        avg_distance := none, coordinates := none }).1]
    rfl
  · exact ((c6_derived_view_composer
      [{ id := 0, x := 0, y := 0 }, { id := 1, x := 0, y := 0 },
       { id := 2, x := 0, y := 0 }]
      [{ hospital_id := 1, vecindarios_asignados := 12
         avg_distance := none, coordinates := none }] [] 1
      { hospital_id := 1, vecindarios_asignados := 12
        avg_distance := none, coordinates := none }).2.2.1
      (by norm_num)).1 (by simp) (by simp) (by norm_num)
  · exact (((c6_derived_view_composer
      [{ id := 0, x := 0, y := 0 }, { id := 1, x := 0, y := 0 },
       { id := 2, x := 0, y := 0 }]
      [{ hospital_id := 1, vecindarios_asignados := 12
         avg_distance := none, coordinates := none }] [] 0
      { hospital_id := 1, vecindarios_asignados := 12
        avg_distance := none, coordinates := none }).2.2.1
      (by norm_num)).2 (by intro t ht; simp at ht; subst ht; norm_num)).1
  · exact (((c6_derived_view_composer
      [{ id := 0, x := 0, y := 0 }, { id := 1, x := 0, y := 0 },
       { id := 2, x := 0, y := 0 }]
      [{ hospital_id := 1, vecindarios_asignados := 12
         avg_distance := none, coordinates := none }] [] 2
      { hospital_id := 1, vecindarios_asignados := 12
        avg_distance := none, coordinates := none }).2.2.1
      (by norm_num)).2 (by intro t ht; simp at ht; subst ht; norm_num)).1

theorem cond_msg_nil_iff (b : Bool) (msg : String) :
    (if b then [msg] else []) = [] ↔ b = false := by
  cases b <;> simp

theorem rule_false_iff (x : JsNum) :
    (!x.truthy || x.jsLe (JsNum.num 0)) = false ↔
      ∃ q : ℚ, x = .num q ∧ 0 < q := by
  cases x with
  | nan => simp [JsNum.truthy, JsNum.jsLe]
  | num q =>
      simp [JsNum.truthy, JsNum.jsLe, not_le]
      intro h
      exact ne_of_gt h

theorem rule_true_iff (x : JsNum) :
    (!x.truthy || x.jsLe (JsNum.num 0)) = true ↔
      (x = .nan ∨ ∃ q : ℚ, x = .num q ∧ q ≤ 0) := by
  cases x with
  | nan => simp [JsNum.truthy, JsNum.jsLe]
  | num q =>
      simp [JsNum.truthy, JsNum.jsLe]
      intro h
      exact le_of_eq h

theorem gt_false_iff (x y : JsNum) :
    x.jsGt y = false ↔
      ∀ qx qy : ℚ, x = .num qx → y = .num qy → qx ≤ qy := by
  cases x <;> cases y <;> simp [JsNum.jsGt, not_lt]

theorem gt_true_iff (x y : JsNum) :
    x.jsGt y = true ↔
      ∃ qx qy : ℚ, x = .num qx ∧ y = .num qy ∧ qy < qx := by
  cases x <;> cases y <;> simp [JsNum.jsGt]

/-- C7.  The validator returns an empty list exactly on submittable drafts:
each of the three positivity rules rejects NaN, zero and negatives and
pushes its own message independently of the others, the k-versus-count rule
pushes its message whenever both fields are numbers with k above the count,
and a non-empty list blocks the submission so no request is issued. -/
theorem c7_validation (f : FormState) :
    (validateForm f = [] ↔ Submittable f)
    ∧ ((f.m = .nan ∨ ∃ q : ℚ, f.m = .num q ∧ q ≤ 0) →
        msgM ∈ validateForm f)
    ∧ ((f.num_neighborhoods = .nan ∨
        ∃ q : ℚ, f.num_neighborhoods = .num q ∧ q ≤ 0) →
        msgNum ∈ validateForm f)
    ∧ ((f.k = .nan ∨ ∃ q : ℚ, f.k = .num q ∧ q ≤ 0) →
        msgK ∈ validateForm f)
    ∧ ((∃ qk qn : ℚ, f.k = .num qk ∧ f.num_neighborhoods = .num qn ∧
        qn < qk) → msgKExceeds ∈ validateForm f)
    ∧ (validateForm f ≠ [] →
        ∀ p : Payload, handleSubmitStart f ≠ .requested p) := by
  refine ⟨?_, ?_, ?_, ?_, ?_, ?_⟩
  · rw [validateForm, List.append_eq_nil, List.append_eq_nil,
      List.append_eq_nil, cond_msg_nil_iff, cond_msg_nil_iff,
      cond_msg_nil_iff, cond_msg_nil_iff, rule_false_iff, rule_false_iff,
      rule_false_iff, gt_false_iff]
    unfold Submittable
    tauto
  · intro h
    have hc := (rule_true_iff f.m).mpr h
    rw [validateForm, if_pos hc]
    simp
  · intro h
    have hc := (rule_true_iff f.num_neighborhoods).mpr h
    rw [validateForm, if_pos hc]
    simp
  · intro h
    have hc := (rule_true_iff f.k).mpr h
    rw [validateForm, if_pos hc]
    simp
  · intro h
    have hc := (gt_true_iff f.k f.num_neighborhoods).mpr h
    rw [validateForm, if_pos hc]
    simp
  · intro hne p
    have hb : (validateForm f).isEmpty = false := by
      cases hb : (validateForm f).isEmpty
      · rfl
      · exact absurd (List.isEmpty_iff.mp hb) hne
    simp [handleSubmitStart, hb]

/-- C7 (witness).  The validation theorem evaluated on concrete drafts: a
draft with negative m, NaN neighborhood count and zero k collects all three
positivity messages; a draft with k of 3 against 2 neighborhoods collects
the exceeds message and does not issue its request; the default draft
validates cleanly. -/
theorem c7_validation_witness :
    msgM ∈ validateForm
      { m := .num (-3), num_neighborhoods := .nan, k := .num 0
        random_seed := none }
    ∧ msgNum ∈ validateForm
      { m := .num (-3), num_neighborhoods := .nan, k := .num 0
        random_seed := none }
    ∧ msgK ∈ validateForm
      { m := .num (-3), num_neighborhoods := .nan, k := .num 0
        random_seed := none }
    ∧ msgKExceeds ∈ validateForm
      { m := .num 100, num_neighborhoods := .num 2, k := .num 3
        random_seed := none }
    ∧ handleSubmitStart
      { m := .num 100, num_neighborhoods := .num 2, k := .num 3
        random_seed := none } ≠
      .requested (mkPayload
        { m := .num 100, num_neighborhoods := .num 2, k := .num 3
          random_seed := none })
    ∧ validateForm
      { m := .num 100, num_neighborhoods := .num 600, k := .num 5
        random_seed := some (.num 42) } = [] := by
  refine ⟨?_, ?_, ?_, ?_, ?_, ?_⟩
  · exact (c7_validation _).2.1 (Or.inr ⟨-3, rfl, by norm_num⟩)
  · exact (c7_validation _).2.2.1 (Or.inl rfl)
  · exact (c7_validation _).2.2.2.1 (Or.inr ⟨0, rfl, le_refl 0⟩)
  · exact (c7_validation _).2.2.2.2.1 ⟨3, 2, rfl, rfl, by norm_num⟩
  · refine (c7_validation _).2.2.2.2.2 ?_ _
    intro hnil
    have := (c7_validation
      { m := .num 100, num_neighborhoods := .num 2, k := .num 3
        random_seed := none }).1.mp hnil
    have h3 := this.2.2.2 3 2 rfl rfl
    norm_num at h3
  · refine (c7_validation _).1.mpr ?_
    exact ⟨⟨100, rfl, by norm_num⟩, ⟨600, rfl, by norm_num⟩,
      ⟨5, rfl, by norm_num⟩, by
        intro qk qn hk hn
        cases hk
        cases hn
        norm_num⟩

theorem digitChar_ne_N (m : ℕ) : digitChar m ≠ 'N' := by
  unfold digitChar
  rcases Nat.lt_or_ge m 10 with h | h
  · interval_cases m <;> decide
  · rw [List.getD_eq_getElem?_getD, List.getElem?_eq_none (by simpa using h)]
    decide

theorem natReprChars_head (n : ℕ) :
    ∃ c cs, natReprChars n = c :: cs ∧ c ≠ 'N' := by
  unfold natReprChars
  by_cases h : n = 0
  · exact ⟨'0', [], by simp [h], by decide⟩
  · rw [if_neg h]
    have hne : Nat.digits 10 n ≠ [] := Nat.digits_ne_nil_iff_ne_zero.mpr h
    have hrev : (Nat.digits 10 n).reverse ≠ [] := by simpa using hne
    obtain ⟨a, t, ht⟩ := List.exists_cons_of_ne_nil hrev
    rw [ht]
    exact ⟨digitChar a, t.map digitChar, rfl, digitChar_ne_N a⟩

theorem toFixedChars_head (q : ℚ) (d : ℕ) :
    ∃ c cs, toFixedChars q d = c :: cs ∧ c ≠ 'N' := by
  obtain ⟨c, cs, hrepr, hc⟩ :=
    natReprChars_head ((round (q * (10 : ℚ) ^ d)).natAbs / 10 ^ d)
  simp only [toFixedChars]
  by_cases hneg : round (q * (10 : ℚ) ^ d) < 0
  · rw [if_pos hneg]
    exact ⟨'-', _, rfl, by decide⟩
  · rw [if_neg hneg, hrepr]
    exact ⟨c, cs ++ _, rfl, hc⟩

theorem toFixed_ne_NaN (q : ℚ) (d : ℕ) : toFixed q d ≠ "NaN" := by
  obtain ⟨c, cs, hrepr, hc⟩ := toFixedChars_head q d
  intro hEq
  have hdata : toFixedChars q d = "NaN".data := congrArg String.data hEq
  rw [hrepr] at hdata
  have hNaN : "NaN".data = ['N', 'a', 'N'] := rfl
  rw [hNaN] at hdata
  injection hdata with h1 h2
  exact hc h1

/-- C10.  The display formatter renders the placeholder for an undefined or
NaN value and otherwise the toFixed rendering with the requested digit
count, two by default; the rendered string is never the text NaN, so no
metric, coordinate or distance ever displays NaN. -/
theorem c10_format_number (q : ℚ) (d m : ℕ) (v : Option JsNum) :
    formatNumber none d = "—"
    ∧ formatNumber (some .nan) d = "—"
    ∧ formatNumber (some (.num q)) d = toFixed q d
    ∧ formatNumberDefault v = formatNumber v 2
    ∧ (padChars d m).length = d
    ∧ formatNumber v d ≠ "NaN" := by
  refine ⟨rfl, rfl, rfl, rfl, by simp [padChars], ?_⟩
  cases v with
  | none =>
      show "—" ≠ "NaN"
      decide
  | some j =>
      cases j with
      | nan =>
          show "—" ≠ "NaN"
          decide
      | num q2 => exact toFixed_ne_NaN q2 d

end KmeansFrontend
